import Mathlib

/-!
Verification of the frame decoder and length-prefix encoder of
lua-nsqpp (src/util.c), shallowly embedded in Lean 4.

Modelling conventions:
- A Lua string (byte buffer) is a `List Nat`; each entry denotes one byte,
  reduced mod 256 at every read.
- C integer conversions are made explicit: `toI32` is the
  uint32-to-int32 wrap used when the return value of `nsqpp_bswap32`
  (a `uint32_t`) is stored into the `int32_t` locals `payload` and
  `type`; `sizeT` is conversion to `size_t` (64-bit unsigned, value
  mod 2^64); `i64wrap` is the wrap to `lua_Integer` (int64) applied by
  `lua_pushinteger` to an unsigned 64-bit quantity.
- A read past the end of the buffer (C reads past the Lua string,
  undefined behavior / crash) is modelled as the decoder returning
  `none`; a defined outcome is `some o`.  Likewise, overflow of the
  32-bit signed addition `payload + 4` (undefined behavior in C,
  reached when the size field is at least `2^31 - 4`) is modelled as
  `none`: the program promises nothing there.
- `size_t` arithmetic on buffer lengths is modelled with exact `Nat`
  arithmetic, which agrees with C whenever the buffer length is
  representable in `size_t` (always true of a real Lua string).
-/

/-- The Lua-visible result of one `decodeframe` call.  The C function
returns positional values: sentinel -1 plus `need` (needMore),
sentinel -2 plus `consumed` (invalid), frame type 0/1 plus `consumed`
and the body string (respErr), or frame type 2 plus `consumed`, body,
16-byte message id, timestamp and attempts (message). -/
inductive Outcome where
  | needMore (need : Int)
  | invalid (consumed : Int)
  | respErr (ftype consumed : Int) (body : List Nat)
  | message (consumed : Int) (body mid : List Nat) (timestamp : Int) (attempts : Nat)
  deriving DecidableEq, Repr

/-- Wrap of an unsigned 32-bit quantity into `int32_t` (two's complement),
as happens when `nsqpp_bswap32`'s `uint32_t` return value is assigned to
the `int32_t` locals `payload` / `type` in `decodeframe_lua`. -/
def toI32 (n : Nat) : Int :=
  if n % 2 ^ 32 < 2 ^ 31 then ((n % 2 ^ 32 : Nat) : Int)
  else ((n % 2 ^ 32 : Nat) : Int) - 2 ^ 32

/-- C conversion of a (possibly negative) integer to `size_t`
(64-bit unsigned): value mod 2^64. -/
def sizeT (z : Int) : Nat := (z % (2 ^ 64 : Int)).toNat

/-- Wrap of an integer into `lua_Integer` (two's-complement int64), as
performed when an unsigned 64-bit value is passed to `lua_pushinteger`. -/
def i64wrap (z : Int) : Int :=
  if z % 2 ^ 64 < 2 ^ 63 then z % 2 ^ 64 else z % 2 ^ 64 - 2 ^ 64

/-- `nsqpp_bswap16`: the big-endian 16-bit value at the start of the
given byte slice (union-based byte swap on a little-endian host),
returned as `uint16_t`. -/
def nsqpp_bswap16 (bytes : List Nat) : Nat :=
  bytes.getD 0 0 % 256 * 2 ^ 8 + bytes.getD 1 0 % 256

/-- `nsqpp_bswap32`: the big-endian 32-bit value at the start of the
given byte slice, returned as `uint32_t`. -/
def nsqpp_bswap32 (bytes : List Nat) : Nat :=
  bytes.getD 0 0 % 256 * 2 ^ 24 + bytes.getD 1 0 % 256 * 2 ^ 16 +
    bytes.getD 2 0 % 256 * 2 ^ 8 + bytes.getD 3 0 % 256

/-- `nsqpp_bswap64`: the big-endian 64-bit value at the start of the
given byte slice, returned as `uint64_t`. -/
def nsqpp_bswap64 (bytes : List Nat) : Nat :=
  bytes.getD 0 0 % 256 * 2 ^ 56 + bytes.getD 1 0 % 256 * 2 ^ 48 +
    bytes.getD 2 0 % 256 * 2 ^ 40 + bytes.getD 3 0 % 256 * 2 ^ 32 +
    bytes.getD 4 0 % 256 * 2 ^ 24 + bytes.getD 5 0 % 256 * 2 ^ 16 +
    bytes.getD 6 0 % 256 * 2 ^ 8 + bytes.getD 7 0 % 256

/-- `decodeframe_lua` from src/util.c.

Line-by-line correspondence:
- `if( len < 4 )`: return sentinel -1 with `need = 4 - len`
  (computed in `size_t`; in-branch it is the exact `Nat` difference).
- `payload = nsqpp_bswap32( frame )`: signed 32-bit big-endian size.
- `if( ( len - 4 ) < payload )`: C compares `size_t` with `int32_t`,
  so `payload` is converted to `uint64_t` (`sizeT payload`); the pushed
  `need` is `payload - (len - 4)` computed in `uint64_t` and pushed as
  `lua_Integer`, i.e. `i64wrap` of the exact integer difference.
- `type = nsqpp_bswap32( frame + 4 )`: this read is out of bounds when
  `len < 8` (possible, since sizes below 4 pass the previous check);
  modelled as `none`.
- `lua_pushinteger( L, payload + 4 )`: the addition is performed on
  `int32_t` (with the literal promoted to `int`), so it overflows —
  undefined behavior — whenever `payload + 4` exceeds `2^31 - 1`;
  modelled as `none`.
- cases 0/1: `lua_pushlstring( L, data + 8, payload - 4 )`; the length
  argument is `payload - 4` converted to `size_t`, so for `payload < 4`
  it puts a read of almost 2^64 bytes past the buffer: `none`.
- case 2: body `lua_pushlstring( L, data + 34, payload - 30 )` (same
  out-of-bounds hazard for `payload < 30`), message id bytes 18..34,
  timestamp `nsqpp_bswap64` at offset 8, attempts `nsqpp_bswap16` at
  offset 10 (sic: the C reads offset 10, not 16).
- default: sentinel -2 replaces the type slot; `consumed` kept. -/
def decodeframe (buf : List Nat) : Option Outcome :=
  let len := buf.length
  if len < 4 then some (.needMore ((4 - len : Nat) : Int))
  else
    let payload : Int := toI32 (nsqpp_bswap32 buf)
    if len - 4 < sizeT payload then
      some (.needMore (i64wrap (payload - ((len : Int) - 4))))
    else if 8 ≤ len then
      let ftype : Int := toI32 (nsqpp_bswap32 (buf.drop 4))
      if payload + 4 < 2 ^ 31 then
        let consumed : Int := payload + 4
        if ftype = 0 ∨ ftype = 1 then
          let n := sizeT (payload - 4)
          if 8 + n ≤ len then some (.respErr ftype consumed ((buf.drop 8).take n))
          else none
        else if ftype = 2 then
          let n := sizeT (payload - 30)
          if 34 + n ≤ len then
            some (.message consumed ((buf.drop 34).take n) ((buf.drop 18).take 16)
              (i64wrap ((nsqpp_bswap64 (buf.drop 8) : Nat) : Int))
              (nsqpp_bswap16 (buf.drop 10)))
          else none
        else some (.invalid consumed)
      else none
    else none

/-- `htonl_lua` from src/util.c: the argument is a `lua_Integer`
(int64); `htonl` receives it converted to `uint32_t` (value mod 2^32)
and the union exposes the 4 bytes of the network-order result, i.e.
the big-endian bytes of the wrapped value. -/
def htonl_lua (v : Int) : List Nat :=
  let n := (v % (2 ^ 32 : Int)).toNat
  [n / 2 ^ 24 % 256, n / 2 ^ 16 % 256, n / 2 ^ 8 % 256, n % 256]

/-- The `consumed` count reported by a non-partial outcome
(the second Lua return value); `none` for a partial outcome. -/
def consumedOf : Outcome → Option Int
  | .needMore _ => none
  | .invalid c => some c
  | .respErr _ c _ => some c
  | .message c _ _ _ _ => some c

/-! ### Helper lemmas about the integer conversions -/

/-- `toI32` never reaches `2^31`. -/
theorem toI32_lt (n : Nat) : toI32 n < 2 ^ 31 := by
  unfold toI32; split <;> omega

/-- `toI32` is at least `-2^31`. -/
theorem toI32_le (n : Nat) : -(2 ^ 31) ≤ toI32 n := by
  unfold toI32; split <;> omega

/-- Conversion to `size_t` is the identity on representable naturals. -/
theorem sizeT_ofNat (p : Nat) (h : p < 2 ^ 64) : sizeT (p : Int) = p := by
  unfold sizeT; omega

/-- Conversion of a negative `int32` value to `size_t` lands in the top
`2^31` values of the `size_t` range. -/
theorem sizeT_neg_ge (z : Int) (h0 : z < 0) (h1 : -(2 ^ 31) ≤ z) :
    2 ^ 64 - 2 ^ 31 ≤ sizeT z := by
  unfold sizeT; omega

/-- Claim C4: every buffer shorter than 4 bytes (including the empty
buffer) decodes to a partial outcome with `need = 4 - len`. -/
theorem C4_short_buffer (buf : List Nat) (h : buf.length < 4) :
    decodeframe buf = some (Outcome.needMore ((4 - buf.length : Nat) : Int)) := by
  simp only [decodeframe]
  rw [if_pos h]

/-- Witness for C4 at the empty buffer: decoding returns a partial
outcome asking for the 4 header bytes. -/
theorem C4_short_buffer_witness :
    decodeframe [] = some (Outcome.needMore 4) := by
  have h := C4_short_buffer [] (by decide)
  exact h.trans (by decide)

/-- Claim C10: a complete-looking header whose size field is negative as
a signed 32-bit integer always yields a partial outcome, because the
`size_t` versus `int32_t` comparison in `decodeframe_lua` converts the
negative size to a huge unsigned value.  The length bound reflects the
maximum representable Lua string length. -/
theorem C10_negative_size_partial (buf : List Nat) (h4 : 4 ≤ buf.length)
    (hlen : buf.length < 2 ^ 63) (hneg : toI32 (nsqpp_bswap32 buf) < 0) :
    ∃ d, decodeframe buf = some (Outcome.needMore d) := by
  have hge := sizeT_neg_ge _ hneg (toI32_le _)
  refine ⟨i64wrap (toI32 (nsqpp_bswap32 buf) - ((buf.length : Int) - 4)), ?_⟩
  simp only [decodeframe]
  rw [if_neg (by omega), if_pos (by omega)]

/-- Witness for C10: the buffer `[255,0,0,0]` has a negative size field
and decodes to a partial outcome. -/
theorem C10_negative_size_partial_witness :
    ∃ d, decodeframe [255, 0, 0, 0] = some (Outcome.needMore d) :=
  C10_negative_size_partial [255, 0, 0, 0] (by decide) (by norm_num) (by decide)

/-- Claim C6: encoding a count in `[0, 2^31)` with `htonl_lua` and
reading the 4 bytes back with the big-endian 32-bit reader (as the
decoder does, including the signed interpretation) returns the count. -/
theorem C6_roundtrip (c : Int) (h0 : 0 ≤ c) (h1 : c < 2 ^ 31) :
    toI32 (nsqpp_bswap32 (htonl_lua c)) = c := by
  lift c to Nat using h0 with m
  have hm : m < 2 ^ 31 := by exact_mod_cast h1
  have hmod : ((m : Int) % (2 ^ 32 : Int)).toNat = m := by omega
  simp only [htonl_lua, hmod, nsqpp_bswap32, List.getD, toI32,
    List.get?_cons_zero, List.get?_cons_succ, Option.getD_some]
  have hrec : m / 2 ^ 24 % 256 % 256 * 2 ^ 24 + m / 2 ^ 16 % 256 % 256 * 2 ^ 16 +
      m / 2 ^ 8 % 256 % 256 * 2 ^ 8 + m % 256 % 256 = m := by omega
  rw [hrec, if_pos (by omega : m % 2 ^ 32 < 2 ^ 31)]
  omega

/-- Witness for C6 at count 1000000. -/
theorem C6_roundtrip_witness :
    toI32 (nsqpp_bswap32 (htonl_lua 1000000)) = 1000000 :=
  C6_roundtrip 1000000 (by norm_num) (by norm_num)

/-- Claim C8 (amended): a well-formed Response frame with size = 4+n and
type = 0 decodes to a Response outcome whose body is bytes [8, 4+size)
and whose consumed is 8+n (that is, size+4).  The bound on n keeps the
32-bit signed computation of consumed (`payload + 4`) from overflowing:
for larger sizes the C is undefined and no outcome is produced. -/
theorem C8_response_frame (buf : List Nat) (n : Nat)
    (hp : toI32 (nsqpp_bswap32 buf) = ((4 + n : Nat) : Int))
    (ht : toI32 (nsqpp_bswap32 (buf.drop 4)) = 0)
    (hlen : 4 + n + 4 ≤ buf.length)
    (hof : 4 + n + 4 < 2 ^ 31) :
    decodeframe buf = some (Outcome.respErr 0 ((8 + n : Nat) : Int) ((buf.drop 8).take n)) := by
  have hb := toI32_lt (nsqpp_bswap32 buf)
  rw [hp] at hb
  have hn31 : (4 + n : Nat) < 2 ^ 31 := by omega
  have hsz : sizeT ((4 + n : Nat) : Int) = 4 + n := sizeT_ofNat _ (by omega)
  have hc2 : ¬(buf.length - 4 < sizeT ((4 + n : Nat) : Int)) := by rw [hsz]; omega
  have hguard : ((4 + n : Nat) : Int) + 4 < 2 ^ 31 := by omega
  have hm4 : ((4 + n : Nat) : Int) - 4 = ((n : Nat) : Int) := by push_cast; ring
  have hszn : sizeT ((n : Nat) : Int) = n := sizeT_ofNat _ (by omega)
  have hcons : ((4 + n : Nat) : Int) + 4 = ((8 + n : Nat) : Int) := by push_cast; ring
  simp only [decodeframe, hp, ht]
  rw [if_neg (by omega : ¬buf.length < 4), if_neg hc2,
    if_pos (by omega : 8 ≤ buf.length), if_pos hguard]
  rw [if_pos (Or.inl trivial : True ∨ (0 : Int) = 1)]
  rw [hm4, hszn, if_pos (by omega : 8 + n ≤ buf.length), hcons]

/-- Witness for C8 at the concrete scenario of the spec: the OK
response frame decodes with body "OK" (bytes 79, 75) and consumed 10. -/
theorem C8_response_frame_witness :
    decodeframe [0, 0, 0, 6, 0, 0, 0, 0, 79, 75] =
      some (Outcome.respErr 0 10 [79, 75]) := by
  have h := C8_response_frame [0, 0, 0, 6, 0, 0, 0, 0, 79, 75] 2
    (by decide) (by decide) (by decide) (by norm_num)
  exact h.trans (by decide)

/-- Counterexample for C8 as stated: on the spec's own concrete frame
(size = 6 = 4+n with n = 2) the decoder reports consumed = 10, while the
claim's formula `consumed = 4+n` yields 6. -/
theorem C8_counterexample_consumed :
    decodeframe [0, 0, 0, 6, 0, 0, 0, 0, 79, 75] =
      some (Outcome.respErr 0 10 [79, 75]) ∧ (10 : Int) ≠ 4 + 2 := by
  constructor <;> decide

/-- Claim C3 (amended): a complete frame with a nonnegative size and an
unrecognized type decodes to the Invalid outcome (sentinel -2) carrying
consumed = size+4 — and never Partial; the original type value is not
part of the result.  The bound on p keeps the 32-bit signed computation
of consumed (`payload + 4`) from overflowing: for larger sizes the C is
undefined and no outcome is produced. -/
theorem C3_unknown_type_invalid (buf : List Nat) (p : Nat)
    (hp : toI32 (nsqpp_bswap32 buf) = (p : Int))
    (h8 : 8 ≤ buf.length) (hlen : p + 4 ≤ buf.length)
    (hof : p + 4 < 2 ^ 31)
    (ht0 : toI32 (nsqpp_bswap32 (buf.drop 4)) ≠ 0)
    (ht1 : toI32 (nsqpp_bswap32 (buf.drop 4)) ≠ 1)
    (ht2 : toI32 (nsqpp_bswap32 (buf.drop 4)) ≠ 2) :
    decodeframe buf = some (Outcome.invalid ((p : Int) + 4)) := by
  have hb := toI32_lt (nsqpp_bswap32 buf)
  rw [hp] at hb
  have hsz : sizeT (p : Int) = p := sizeT_ofNat _ (by omega)
  have hc2 : ¬(buf.length - 4 < sizeT (p : Int)) := by rw [hsz]; omega
  have hguard : (p : Int) + 4 < 2 ^ 31 := by omega
  have hor : ¬(toI32 (nsqpp_bswap32 (buf.drop 4)) = 0 ∨
      toI32 (nsqpp_bswap32 (buf.drop 4)) = 1) := fun h => h.elim ht0 ht1
  simp only [decodeframe, hp]
  rw [if_neg (by omega : ¬buf.length < 4), if_neg hc2,
    if_pos h8, if_pos hguard, if_neg hor, if_neg ht2]

/-- Witness for C3 (amended) at a frame with size 5 and type 99. -/
theorem C3_unknown_type_invalid_witness :
    decodeframe [0, 0, 0, 5, 0, 0, 0, 99, 0] = some (Outcome.invalid 9) := by
  have h := C3_unknown_type_invalid [0, 0, 0, 5, 0, 0, 0, 99, 0] 5
    (by decide) (by decide) (by decide) (by norm_num)
    (by decide) (by decide) (by decide)
  exact h.trans (by decide)

/-- Counterexample for C3 as stated: the type = 99 frame and the
type = 98 frame decode to the very same Invalid outcome (sentinel -2
with consumed = 8) — `lua_replace` overwrites the type slot, so the
original decoded type value is not carried by the result. -/
theorem C3_counterexample_typecode_lost :
    decodeframe [0, 0, 0, 4, 0, 0, 0, 99] = some (Outcome.invalid 8) ∧
    decodeframe [0, 0, 0, 4, 0, 0, 0, 99] = decodeframe [0, 0, 0, 4, 0, 0, 0, 98] := by
  constructor <;> decide

/-- Claim C9: every defined non-partial outcome reports
consumed = size + 4, where size is the signed big-endian 32-bit
integer in the first 4 bytes.  Sizes that would overflow the 32-bit
computation of consumed produce no outcome at all (undefined
behavior), so they do not fall under the claim. -/
theorem C9_consumed_total (buf : List Nat) (o : Outcome) (c : Int)
    (ho : decodeframe buf = some o) (hc : consumedOf o = some c) :
    c = toI32 (nsqpp_bswap32 buf) + 4 := by
  simp only [decodeframe] at ho
  split at ho
  · injection ho with h; subst h; simp [consumedOf] at hc
  · split at ho
    · injection ho with h; subst h; simp [consumedOf] at hc
    · split at ho
      · split at ho
        · split at ho
          · split at ho
            · injection ho with h; subst h
              simp only [consumedOf] at hc
              exact (Option.some.inj hc).symm
            · exact absurd ho (by simp)
          · split at ho
            · split at ho
              · injection ho with h; subst h
                simp only [consumedOf] at hc
                exact (Option.some.inj hc).symm
              · exact absurd ho (by simp)
            · injection ho with h; subst h
              simp only [consumedOf] at hc
              exact (Option.some.inj hc).symm
        · exact absurd ho (by simp)
      · exact absurd ho (by simp)

/-- Witness for C9 at an Error frame (size 4, type 1, empty body):
consumed = 8 = size + 4. -/
theorem C9_consumed_total_witness :
    (8 : Int) = toI32 (nsqpp_bswap32 [0, 0, 0, 4, 0, 0, 0, 1]) + 4 :=
  C9_consumed_total [0, 0, 0, 4, 0, 0, 0, 1] (Outcome.respErr 1 8 []) 8
    (by decide) (by decide)

/-- Claim C1 (code evaluation at the failing input): on a well-formed
Message frame (size 30, type 2, timestamp bytes 0..7 at offsets 8..16,
attempts field 9 at offsets 16..18, id bytes 10..25), the decoder
returns attempts = 515 — the big-endian 16-bit value at offset 10,
inside the timestamp — although the attempts field at offset 16
holds 9.  Timestamp, id, body and consumed match the claim. -/
theorem C1_message_attempts_bug :
    decodeframe [0, 0, 0, 30, 0, 0, 0, 2, 0, 1, 2, 3, 4, 5, 6, 7, 0, 9,
        10, 11, 12, 13, 14, 15, 16, 17, 18, 19, 20, 21, 22, 23, 24, 25] =
      some (Outcome.message 34 []
        [10, 11, 12, 13, 14, 15, 16, 17, 18, 19, 20, 21, 22, 23, 24, 25]
        283686952306183 515) ∧
    nsqpp_bswap16 (List.drop 16 [0, 0, 0, 30, 0, 0, 0, 2, 0, 1, 2, 3, 4, 5, 6, 7, 0, 9,
        10, 11, 12, 13, 14, 15, 16, 17, 18, 19, 20, 21, 22, 23, 24, 25]) = 9 := by
  constructor <;> decide

/-- Claim C2 (code evaluation at the failing inputs): on a complete
Response frame with size 2 (< 4) and on a complete Message frame with
size 26 (< 30) the decoder does not return Invalid; it calls
`lua_pushlstring` with a negative length converted to almost 2^64,
reading far past the buffer (undefined behavior), modelled as `none`. -/
theorem C2_undersized_frame_oob :
    decodeframe [0, 0, 0, 2, 0, 0, 0, 0] = none ∧
    decodeframe [0, 0, 0, 26, 0, 0, 0, 2, 0, 0, 0, 0, 0, 0, 0, 0, 0, 0,
        0, 0, 0, 0, 0, 0, 0, 0, 0, 0, 0, 0] = none := by
  constructor <;> decide

/-- Claim C5 (code evaluation at the failing input): the header-only
buffer [0,0,0,20] yields need = 20 exactly, but appending exactly 20
bytes that form a type = 2 payload (size 20 < 30) makes the decoder
perform the out-of-bounds negative-length read instead of returning a
non-partial outcome. -/
theorem C5_exact_need_then_oob :
    decodeframe [0, 0, 0, 20] = some (Outcome.needMore 20) ∧
    decodeframe [0, 0, 0, 20, 0, 0, 0, 2, 0, 0, 0, 0, 0, 0, 0, 0, 0, 0,
        0, 0, 0, 0, 0, 0] = none := by
  constructor <;> decide

/-- Counterexample for C7 as stated: the encoder raises no range error;
the out-of-range input -1 is silently wrapped to the same 4-byte prefix
as the in-range value 4294967295. -/
theorem C7_counterexample_silent_wrap :
    htonl_lua (-1) = [255, 255, 255, 255] ∧
    htonl_lua (-1) = htonl_lua 4294967295 := by
  constructor <;> decide

/-- Claim C7 (amended): for every integer input the encoder produces a
4-byte prefix and depends only on the value mod 2^32 — out-of-range
values are silently wrapped, and no error is reported. -/
theorem C7_silent_wrap_mod32 (v : Int) :
    (htonl_lua v).length = 4 ∧ htonl_lua v = htonl_lua (v % 2 ^ 32) := by
  refine ⟨rfl, ?_⟩
  simp only [htonl_lua]
  rw [Int.emod_emod_of_dvd v dvd_rfl]
